import Mathlib

/-!
Verification of the agent tool-orchestration runtime in
`src/scripts/propose-changes.py`.

The Python source is shallowly embedded: each relevant function is
translated into an executable Lean definition over explicit state, and
the claimed properties of the specification are settled as theorems
about those definitions.  External I/O (HTTP calls, `subprocess`,
`exec`, `pickle`, the filesystem) is represented by explicit data
passed into the embedded functions; the control flow and all pure
computations are translated directly from the source.
-/

set_option maxRecDepth 8000

namespace ProposeChanges

/-! ## Conversation messages and the context compressor

Embedding of `UnifiedChangeProposer.compress_conversation_context`
(propose-changes.py lines 892-957).  A chat message is represented by
its role, its textual content, and whether it carries a `tool_calls`
field; these are the only attributes the compressor inspects. -/

structure Message where
  role : String
  content : String
  hasToolCalls : Bool
deriving DecidableEq, Repr

/-- The tool-message classification on line 905 of the source:
role in ["assistant", "tool"] and ("tool_calls" in msg or role == "tool"). -/
def isToolMsg (m : Message) : Bool :=
  (m.role == "assistant" || m.role == "tool") && (m.hasToolCalls || m.role == "tool")

/-- The high-signal keywords scanned for on lines 924-925. -/
def signalKeywords : List String :=
  ["error", "failed", "test", "import", "export", "function", "class", "interface"]

/-- `needle` occurs as a contiguous substring of `hay` (Python `in` on strings). -/
def containsSub (needle : List Char) : List Char → Bool
  | [] => needle.isPrefixOf []
  | c :: t => needle.isPrefixOf (c :: t) || containsSub needle t

/-- Line 924: `any(keyword in line.lower() for keyword in [...])`. -/
def lineHasSignal (line : String) : Bool :=
  signalKeywords.any fun kw => containsSub kw.toList line.toLower.toList

/-- Truncation of a large tool-result content, lines 919-929: keep at
most 10 keyword-bearing lines out of the first 20, then append the
truncation marker recording the original and reduced sizes. -/
def truncateToolContent (content : String) : String :=
  let lines := content.splitOn "\n"
  let keyLines := (lines.take 20).filter lineHasSignal
  let keptContent := "\n".intercalate (keyLines.take 10)
  keptContent ++ "\n\n[TRUNCATED: " ++ toString content.length ++ " chars → "
    ++ toString keptContent.length ++ " chars for token efficiency]"

/-- Per-message compression of a retained recent tool message, lines
915-937: only a `tool`-role message whose content exceeds 1000
characters is truncated; assistant messages and small tool results are
kept as-is. -/
def compressToolMsg (m : Message) : Message :=
  if m.role == "tool" && decide (1000 < m.content.length) then
    { m with content := truncateToolContent m.content }
  else m

/-- Python `lst[-2:]` (line 911). -/
def takeLast2 (l : List α) : List α := l.drop (l.length - 2)

/-- The synthetic summary message inserted on lines 940-946 when more
than two tool messages were present; its argument is
`explored_count = len(tool_messages) // 2`. -/
def summaryMsg (exploredCount : Nat) : Message :=
  { role := "assistant"
    content := "🗜️ AGGRESSIVE COMPRESSION: Explored " ++ toString exploredCount
      ++ " tools/files. Key context preserved in recent messages. Continue focused exploration or synthesize findings."
    hasToolCalls := false }

/-- `UnifiedChangeProposer.compress_conversation_context` (lines
892-957).  Histories of at most 4 messages are returned unchanged.
Otherwise the first two messages (system + initial user) are kept, the
messages after them are partitioned, only the last two tool messages
are retained (compressed), a summary message is inserted when more than
two tool messages existed, and all regular (non-tool) messages beyond
the first two are discarded (line 948: "NO regular messages"). -/
def compress_conversation_context (messages : List Message) : List Message :=
  if messages.length ≤ 4 then messages
  else
    let toolMessages := (messages.drop 2).filter isToolMsg
    let recentTools := takeLast2 toolMessages
    let compressedTools := recentTools.map compressToolMsg
    let mid := if 2 < toolMessages.length then [summaryMsg (toolMessages.length / 2)] else []
    messages.take 2 ++ mid ++ compressedTools

/-! ## Backoff controller: the wait-time computation

Embedding of the rate-limit handling inside `make_api_call_with_retry`
(lines 39-79).  On a 429 response the error message is searched with
the regular expression `try again in (\d+(?:\.\d+)?)([ms]+)`; the wait
time is the parsed value (converted from milliseconds when the unit is
"ms"), clamped from below to one second; without a hint the wait is
`2 ** retry_count + retry_count * 0.5`.  Durations are rationals
(Python floats carry exact decimal literals here). -/

/-- Leading run of decimal digits (regex `\d+`). -/
def takeDigits : List Char → List Char × List Char
  | [] => ([], [])
  | c :: cs =>
    if c.isDigit then
      let (d, r) := takeDigits cs
      (c :: d, r)
    else ([], c :: cs)

/-- Numeric value of a digit run. -/
def natOfDigits (ds : List Char) : Nat :=
  ds.foldl (fun a c => 10 * a + (c.toNat - 48)) 0

/-- Leading maximal run of unit characters (regex `[ms]+`). -/
def takeUnitChars : List Char → List Char × List Char
  | [] => ([], [])
  | c :: cs =>
    if c = 'm' ∨ c = 's' then
      let (u, r) := takeUnitChars cs
      (c :: u, r)
    else ([], c :: cs)

/-- Parse `(\d+(?:\.\d+)?)([ms]+)` at the head of a character list,
returning the numeric value and the unit string. -/
def parseNumberUnit (cs : List Char) : Option (ℚ × String) :=
  let (ds, r1) := takeDigits cs
  if ds.isEmpty then none
  else
    let (value, rest) :=
      match r1 with
      | '.' :: r2 =>
        let (fs, r3) := takeDigits r2
        if fs.isEmpty then ((natOfDigits ds : ℚ), r1)
        else ((natOfDigits ds : ℚ) + (natOfDigits fs : ℚ) / (10 : ℚ) ^ fs.length, r3)
      | _ => ((natOfDigits ds : ℚ), r1)
    let (us, _) := takeUnitChars rest
    if us.isEmpty then none
    else some (value, String.mk us)

def tryAgainLit : List Char := "try again in ".toList

/-- Leftmost match of the search on line 54:
`re.search(r'try again in (\d+(?:\.\d+)?)([ms]+)', error_msg)`. -/
def scanWaitHint : List Char → Option (ℚ × String)
  | [] => none
  | c :: t =>
    match (if tryAgainLit.isPrefixOf (c :: t) then
             parseNumberUnit (List.drop tryAgainLit.length (c :: t))
           else none) with
    | some r => some r
    | none => scanWaitHint t

def parseWaitHint (msg : String) : Option (ℚ × String) :=
  scanWaitHint msg.toList

/-- The wait-time computation of `make_api_call_with_retry`, lines
50-67: hinted value converted to seconds when the unit is "ms" (left
unchanged for "s" and any other unit run) and clamped to at least one
second (line 62, `max(wait_time, 1)`); exponential backoff with linear
jitter when no hint is found. -/
def rateLimitWait (errorMsg : String) (retryCount : Nat) : ℚ :=
  match parseWaitHint errorMsg with
  | some (v, unit) =>
    let w := if unit = "ms" then v / 1000 else v
    if w < 1 then 1 else w
  | none => (2 : ℚ) ^ retryCount + (retryCount : ℚ) * (1 / 2)

/-! ## The agent loop and the top-level entry point

Embedding of `UnifiedChangeProposer.propose_changes` (lines 1620-2051)
and `main` (lines 2054-2083).  One iteration of the while loop makes
one call to the inference service; the observable outcome of that call
— an exception, a non-200 status, a message with tool calls, or a
terminal message — drives the control flow.  Context compression,
sanitization and the synthesis directives of lines 1780-1845 only
change the outbound payload, never the branch taken on the response,
so they do not appear in this control-flow model. -/

structure Change where
  action : String
  file : String
  search : String
  replace : String
deriving DecidableEq, Repr

/-- The structured proposal: the dictionaries this script returns all
carry an `analysis` string and a `changes` list. -/
structure Proposal where
  analysis : String
  changes : List Change
deriving DecidableEq, Repr

/-- One response turn as observed by the loop body after
`make_api_call_with_retry` has returned: the HTTP status, whether the
message contains `tool_calls` (line 1938), the finish reason and — for
a message without tool calls — the result of `json.loads` on its
content (lines 2037-2038), `none` when the content is not valid
JSON. -/
structure ChatTurn where
  status : Nat
  hasToolCalls : Bool
  finishReason : String
  contentParsed : Option Proposal
deriving DecidableEq, Repr

/-- One event of the conversation: either a response turn or an
exception raised inside the try block (caught on line 2046). -/
inductive ApiEvent where
  | turn (t : ChatTurn)
  | raised
deriving DecidableEq, Repr

/-- The while loop of `propose_changes`, lines 1776-2051, driven by the
sequence of events the inference service produces.  Per source:
a non-200 status returns the API-failure payload (lines 1929-1931);
an exception returns the error payload (lines 2046-2048); tool calls
are dispatched and the loop continues (lines 1938-2032); a terminal
response with finish reason "stop" returns the parsed content, or the
JSON-parse-error payload when parsing fails (lines 2035-2044); any
other terminal response just continues; an exhausted iteration budget
returns the max-iterations payload (lines 2050-2051). -/
def propose_changes_loop : Nat → List ApiEvent → Proposal
  | 0, _ => ⟨"Max iterations reached", []⟩
  | _ + 1, [] => ⟨"Error occurred", []⟩
  | n + 1, e :: rest =>
    match e with
    | .raised => ⟨"Error occurred", []⟩
    | .turn t =>
      if t.status ≠ 200 then ⟨"API call failed", []⟩
      else if t.hasToolCalls then propose_changes_loop n rest
      else if t.finishReason = "stop" then
        match t.contentParsed with
        | some p => p
        | none => ⟨"JSON parse error", []⟩
      else propose_changes_loop n rest

/-- `UnifiedChangeProposer.propose_changes` (lines 1620-2051): an empty
API key short-circuits (lines 1622-1624); otherwise the loop runs with
`max_iterations = 100` (line 1773). -/
def propose_changes (apiKey : String) (events : List ApiEvent) : Proposal :=
  if apiKey = "" then ⟨"No API key", []⟩
  else propose_changes_loop 100 events

/-- Observable outcome of `main` (lines 2054-2083): the `sys.exit(1)`
paths print only to stderr and emit nothing on stdout; the normal path
prints exactly the proposal as JSON on stdout. -/
inductive MainResult where
  | exitUsage
  | exitNoKey
  | exitEmptyLog
  | stdout (p : Proposal)
deriving DecidableEq, Repr

/-- Whether the outcome put a JSON document on the primary output channel. -/
def emitsJson : MainResult → Bool
  | .stdout _ => true
  | _ => false

/-- `main` (lines 2054-2083).  `argc` is `len(sys.argv)`; `apiKey` is
the value of the OPENAI_API_KEY environment variable with the empty
string standing for an unset variable (`os.environ.get` returns None,
and both None and "" are falsy on line 2064); `errorLog` is the string
returned by `read_error_log`, which is empty both for a missing file
and for an empty log (lines 1576-1586, 2074-2077). -/
def main_entry (argc : Nat) (apiKey : String) (errorLog : String)
    (events : List ApiEvent) : MainResult :=
  if argc ≠ 2 then .exitUsage
  else if apiKey = "" then .exitNoKey
  else if errorLog = "" then .exitEmptyLog
  else .stdout (propose_changes apiKey events)

/-- An event script contains no successfully parsed terminal response:
every turn either fails, requests tools, or fails to parse.  This is
the decidable guard used to state that the loop can only end in one of
its fatal payloads. -/
def noParsedStop (events : List ApiEvent) : Bool :=
  events.all fun e =>
    match e with
    | .raised => true
    | .turn t => !(t.status == 200 && !t.hasToolCalls && t.finishReason == "stop"
        && t.contentParsed.isSome)

/-! ## Tool registry: dynamic tool synthesis and the persistent cache

Embedding of `CodeExplorerMCP.create_dynamic_tool` (lines 346-409),
`_cache_tool` (lines 488-508) and `_load_cached_tool` (lines 510-526).
A cache entry on disk is the pickle file `{tool_name}_{md5(tool_code)}.pkl`;
the cache key is content-addressed by the name and the md5 of the
source text, so in the model a key is represented by the
(name, source) pair itself (byte-identical source gives the identical
md5 and thus the identical file name). -/

structure ToolEntry where
  code : String
  description : String
  cached : Bool
deriving DecidableEq, Repr

structure RegistryState where
  dynamicTools : List (String × ToolEntry)
  cacheFiles : List (String × String)
deriving DecidableEq, Repr

/-- Outcome of one `create_dynamic_tool` call: the returned success and
`cached` flags, and whether `exec(tool_code, ...)` was run (line 374),
i.e. whether the source was (re)compiled. -/
structure CreateOutcome where
  success : Bool
  cached : Bool
  executed : Bool
deriving DecidableEq, Repr

/-- `CodeExplorerMCP.create_dynamic_tool` (lines 346-409).  A matching
cache file short-circuits: the call returns success with cached=True
without executing the source (lines 350-360).  Otherwise the source is
executed; `execDefines` abstracts whether the executed code defines a
function named `tool_name` (line 377).  On success the tool is stored
and a cache file is written (lines 383-393); otherwise an error payload
is returned and nothing is stored (line 406). -/
def create_dynamic_tool (st : RegistryState) (toolName toolCode description : String)
    (execDefines : Bool) : CreateOutcome × RegistryState :=
  if (toolName, toolCode) ∈ st.cacheFiles then
    (⟨true, true, false⟩, st)
  else if execDefines then
    (⟨true, false, true⟩,
      { dynamicTools := (toolName, ⟨toolCode, description, false⟩) :: st.dynamicTools
        cacheFiles := (toolName, toolCode) :: st.cacheFiles })
  else
    (⟨false, false, true⟩, st)

/-! ## Tool registry: schema inference

Embedding of `CodeExplorerMCP._generate_tool_schema` (lines 434-486).
A declared parameter of the synthesized function is its name, its
annotation and whether it has a default value. -/

inductive PyAnnotation where
  | empty
  | int
  | float
  | bool
  | list
  | dict
  | other (typeName : String)
deriving DecidableEq, Repr

structure PyParam where
  name : String
  annotation : PyAnnotation
  hasDefault : Bool
deriving DecidableEq, Repr

/-- Lines 452-466: the schema primitive inferred from the annotation;
"string" is the default for a missing annotation and for any
annotation other than int, float, bool, list, dict. -/
def schemaParamType : PyAnnotation → String
  | .int => "integer"
  | .float => "number"
  | .bool => "boolean"
  | .list => "array"
  | .dict => "object"
  | _ => "string"

/-- The `parameters` object of the generated schema: the ordered
property list (name, type) and the `required` array. -/
structure ToolSchemaParams where
  properties : List (String × String)
  required : List String
deriving DecidableEq, Repr

/-- `_generate_tool_schema` (lines 434-476): every declared parameter
becomes a property with its inferred type (lines 451-471); a parameter
is appended to `required` exactly when it has no default value (lines
473-474). -/
def generate_tool_schema (params : List PyParam) : ToolSchemaParams :=
  { properties := params.map fun p => (p.name, schemaParamType p.annotation)
    required := (params.filter fun p => !p.hasDefault).map (·.name) }

/-! ## Sandbox manager

Embedding of `CodeExplorerMCP.run_in_sandbox` (lines 661-706) and
`cleanup_sandbox` (lines 843-880).  The registry `self.sandboxes` is a
keyed list; the set of existing sandbox directories is a list of
paths.  The underlying I/O of one operation (subprocess run, code
execution, file operation) is abstracted by the `SandboxResult` it
produced: each of the four `_run_sandbox_*` helpers returns a dict
whose "success" key drives the recorded status (line 694). -/

structure SandboxResult where
  success : Bool
  payload : String
deriving DecidableEq, Repr

structure Operation where
  id : String
  opType : String
  description : String
  status : String
  result : SandboxResult
deriving DecidableEq, Repr

structure Sandbox where
  name : String
  sandboxType : String
  path : String
  description : String
  operations : List Operation
  status : String
deriving DecidableEq, Repr

structure SandboxState where
  sandboxes : List (String × Sandbox)
  dirs : List String
deriving DecidableEq, Repr

/-- Replace the binding of `k` (Python mutates the dict entry in place;
keys are unique in a dict). -/
def updateEntry (l : List (String × Sandbox)) (k : String) (v : Sandbox) :
    List (String × Sandbox) :=
  l.map fun p => if p.1 = k then (k, v) else p

/-- Remove the binding of `k` (Python `del self.sandboxes[name]`). -/
def removeEntry (l : List (String × Sandbox)) (k : String) : List (String × Sandbox) :=
  l.filter fun p => p.1 ≠ k

/-- The four dispatched operation types of lines 682-689. -/
def validOpTypes : List String := ["command", "code_execution", "file_operation", "build_test"]

inductive RunOutcome where
  | notFound
  | unknownType (t : String)
  | ran (operationId : String) (status : String)
deriving DecidableEq, Repr

/-- `CodeExplorerMCP.run_in_sandbox` (lines 661-706).  A missing
sandbox returns an error (lines 664-665).  An unknown operation type
returns an error before anything is recorded (lines 690-691).
Otherwise one operation record is built (id "op-<n+1>", lines 670-677,
initially "running"), the action runs, the record's status is set from
the action's success (line 694) and the record is appended to the
sandbox's operation list (line 695). -/
def run_in_sandbox (st : SandboxState) (name opType opData description : String)
    (exec : SandboxResult) : RunOutcome × SandboxState :=
  match st.sandboxes.lookup name with
  | none => (.notFound, st)
  | some sb =>
    if opType ∈ validOpTypes then
      let opId := "op-" ++ toString (sb.operations.length + 1)
      let record : Operation :=
        { id := opId
          opType := opType
          description := description
          status := if exec.success then "completed" else "failed"
          result := exec }
      let sb' := { sb with operations := sb.operations ++ [record] }
      (.ran opId record.status, { st with sandboxes := updateEntry st.sandboxes name sb' })
    else
      (.unknownType opType, st)

inductive CleanupOutcome where
  | notFound
  | refusedWarning (completedCount : Nat)
  | removed (operationsRemoved : Nat)
deriving DecidableEq, Repr

/-- `CodeExplorerMCP.cleanup_sandbox` (lines 843-880).  A missing
sandbox returns an error (lines 846-847).  Without force, when the
operation list is nonempty and contains at least one operation with
status "completed", the call refuses with a warning and changes
nothing (lines 853-860).  Otherwise the sandbox directory is removed
(rmtree, lines 863-865; removing an absent path is a no-op, as
guarded by `exists()`) and the registry entry is deleted (line 868). -/
def cleanup_sandbox (st : SandboxState) (name : String) (force : Bool) :
    CleanupOutcome × SandboxState :=
  match st.sandboxes.lookup name with
  | none => (.notFound, st)
  | some sb =>
    let unsavedOps := sb.operations.filter fun op => op.status == "completed"
    if !force && !sb.operations.isEmpty && !unsavedOps.isEmpty then
      (.refusedWarning unsavedOps.length, st)
    else
      (.removed sb.operations.length,
        { sandboxes := removeEntry st.sandboxes name
          dirs := st.dirs.erase sb.path })

/-! ## Concrete sample data used by counterexamples and witnesses -/

def exSys : Message := ⟨"system", "s", false⟩
def exUser : Message := ⟨"user", "u", false⟩
def exA1 : Message := ⟨"assistant", "a1", true⟩
def exT1 : Message := ⟨"tool", "t1", false⟩
def exA2 : Message := ⟨"assistant", "a2", true⟩
def exT2 : Message := ⟨"tool", "t2", false⟩

/-- A six-message history with two complete tool interactions. -/
def exHistory : List Message := [exSys, exUser, exA1, exT1, exA2, exT2]

/-- A well-formed structured proposal. -/
def exProposal : Proposal :=
  ⟨"fixed the build", [⟨"modify", "backend/src/foo.ts", "old", "new"⟩]⟩

/-- A terminal 200-status turn whose content is not valid JSON. -/
def exBadTerminal : ApiEvent := .turn ⟨200, false, "stop", none⟩

/-- A terminal 200-status turn whose content parses as `exProposal`. -/
def exGoodTerminal : ApiEvent := .turn ⟨200, false, "stop", some exProposal⟩

def exSandboxCompleted : Sandbox :=
  ⟨"sb", "temp_directory", "/repo/.ai_sandboxes/sb", "demo",
    [⟨"op-1", "command", "run tests", "completed", ⟨true, "ok"⟩⟩], "active"⟩

def exSandboxFailed : Sandbox :=
  ⟨"sb", "temp_directory", "/repo/.ai_sandboxes/sb", "demo",
    [⟨"op-1", "command", "run tests", "failed", ⟨false, "boom"⟩⟩], "active"⟩

def exStateCompleted : SandboxState :=
  ⟨[("sb", exSandboxCompleted)], ["/repo/.ai_sandboxes/sb"]⟩

def exStateFailed : SandboxState :=
  ⟨[("sb", exSandboxFailed)], ["/repo/.ai_sandboxes/sb"]⟩

/-! ## Helper lemmas -/

theorem compress_short (l : List Message) (h : l.length ≤ 4) :
    compress_conversation_context l = l := by
  simp [compress_conversation_context, h]

theorem compress_long (l : List Message) (h : 4 < l.length) :
    compress_conversation_context l =
      l.take 2
        ++ (if 2 < ((l.drop 2).filter isToolMsg).length
            then [summaryMsg (((l.drop 2).filter isToolMsg).length / 2)] else [])
        ++ (takeLast2 ((l.drop 2).filter isToolMsg)).map compressToolMsg := by
  unfold compress_conversation_context
  rw [if_neg (by omega)]

theorem isToolMsg_compressToolMsg (m : Message) :
    isToolMsg (compressToolMsg m) = isToolMsg m := by
  unfold compressToolMsg
  split <;> simp [isToolMsg]

theorem isToolMsg_summaryMsg (n : Nat) : isToolMsg (summaryMsg n) = false := rfl

theorem length_takeLast2 (l : List α) : (takeLast2 l).length = min l.length 2 := by
  simp [takeLast2]
  omega

theorem mem_takeLast2 {l : List α} {x : α} (h : x ∈ takeLast2 l) : x ∈ l :=
  List.drop_subset _ l h

theorem compress_take_two (l : List Message) :
    (compress_conversation_context l).take 2 = l.take 2 := by
  by_cases h : l.length ≤ 4
  · rw [compress_short l h]
  · push_neg at h
    rw [compress_long l h, List.append_assoc]
    exact List.take_left' (by simp [List.length_take]; omega)

theorem compress_sq_length (l : List Message) :
    (compress_conversation_context (compress_conversation_context l)).length ≤ 4 := by
  by_cases h : l.length ≤ 4
  · rw [compress_short l h, compress_short l h]; exact h
  · push_neg at h
    set tm := (l.drop 2).filter isToolMsg with htm
    have h2 : (l.take 2).length = 2 := by simp [List.length_take]; omega
    by_cases hbig : 2 < tm.length
    · -- a summary message is inserted: the first compression has length 5
      set ct := (takeLast2 tm).map compressToolMsg with hctdef
      have hct : ct.length = 2 := by
        rw [hctdef]; simp [List.length_map, length_takeLast2]; omega
      have hc : compress_conversation_context l =
          l.take 2 ++ [summaryMsg (tm.length / 2)] ++ ct := by
        rw [compress_long l h, if_pos hbig]
      have hlen : (compress_conversation_context l).length = 5 := by
        rw [hc]; simp [List.length_append, h2, hct]
      have hdrop : (compress_conversation_context l).drop 2 = summaryMsg (tm.length / 2) :: ct := by
        rw [hc, List.append_assoc]
        exact List.drop_left' h2
      have hfilter : ((compress_conversation_context l).drop 2).filter isToolMsg = ct := by
        rw [hdrop, List.filter_cons]
        rw [isToolMsg_summaryMsg]
        simp only [Bool.false_eq_true, if_false]
        apply List.filter_eq_self.mpr
        intro a ha
        rw [hctdef] at ha
        rcases List.mem_map.mp ha with ⟨b, hb, rfl⟩
        rw [isToolMsg_compressToolMsg]
        exact List.of_mem_filter (mem_takeLast2 hb)
      rw [compress_long _ (by omega), hfilter, if_neg (by omega)]
      simp [List.length_append, List.length_take, List.length_map, length_takeLast2, hlen, hct]
    · -- no summary message: the first compression already has length ≤ 4
      have hshort : (compress_conversation_context l).length ≤ 4 := by
        rw [compress_long l h, if_neg hbig]
        simp [List.length_append, h2, List.length_map, length_takeLast2]
        omega
      rw [compress_short _ hshort]
      exact hshort

/-! ## Claim theorems -/

/-- C5 counterexample: on the six-message history `exHistory` — system,
initial user, and two complete tool interactions — a second application
of the compressor drops the synthetic summary message that the first
application inserted, so compress(compress(m)) ≠ compress(m). -/
theorem compress_not_idempotent_cex :
    compress_conversation_context (compress_conversation_context exHistory) ≠
      compress_conversation_context exHistory := by decide

/-- C5 (amended): the compressor is not idempotent, but it stabilises
after two applications: recompressing an already-compressed history can
drop only the synthetic summary message, after which the history has at
most 4 messages and every further application is the identity; hence
compress ∘ compress is idempotent. -/
theorem compress_twice_idempotent (l : List Message) :
    compress_conversation_context (compress_conversation_context
        (compress_conversation_context l))
      = compress_conversation_context (compress_conversation_context l) :=
  compress_short _ (compress_sq_length l)

/-- C6: for a history whose first message is the system message and
whose second is the initial user message, compression returns a history
that still has exactly those two messages, unchanged, in positions 0
and 1. -/
theorem compress_preserves_anchors (l : List Message) (sys usr : Message)
    (h0 : l[0]? = some sys) (h1 : l[1]? = some usr)
    (hs : sys.role = "system") (hu : usr.role = "user") :
    (compress_conversation_context l)[0]? = some sys ∧
    (compress_conversation_context l)[1]? = some usr := by
  have ht := compress_take_two l
  constructor
  · calc (compress_conversation_context l)[0]?
        = ((compress_conversation_context l).take 2)[0]? :=
          (List.getElem?_take_of_lt (by omega)).symm
      _ = (l.take 2)[0]? := by rw [ht]
      _ = some sys := by rw [List.getElem?_take_of_lt (by omega)]; exact h0
  · calc (compress_conversation_context l)[1]?
        = ((compress_conversation_context l).take 2)[1]? :=
          (List.getElem?_take_of_lt (by omega)).symm
      _ = (l.take 2)[1]? := by rw [ht]
      _ = some usr := by rw [List.getElem?_take_of_lt (by omega)]; exact h1

/-- C6 witness: the anchor-preservation theorem applied to the concrete
history `exHistory`. -/
theorem compress_preserves_anchors_witness :
    exHistory[0]? = some exSys ∧ exHistory[1]? = some exUser ∧
    exSys.role = "system" ∧ exUser.role = "user" ∧
    (compress_conversation_context exHistory)[0]? = some exSys ∧
    (compress_conversation_context exHistory)[1]? = some exUser := by
  refine ⟨by decide, by decide, by decide, by decide, ?_, ?_⟩
  · exact (compress_preserves_anchors exHistory exSys exUser (by decide) (by decide)
      (by decide) (by decide)).1
  · exact (compress_preserves_anchors exHistory exSys exUser (by decide) (by decide)
      (by decide) (by decide)).2

/-! Helper lemmas for the backoff, loop, registry and sandbox theorems. -/

theorem parse630 : parseWaitHint "Please try again in 630ms" = some (630, "ms") := by decide

theorem parse2s : parseWaitHint "Please try again in 2s" = some (2, "s") := by decide

theorem loop_fatal_empty_changes (fuel : Nat) (events : List ApiEvent)
    (h : noParsedStop events = true) :
    (propose_changes_loop fuel events).changes = [] := by
  induction fuel generalizing events with
  | zero => rfl
  | succ n ih =>
    cases events with
    | nil => rfl
    | cons e rest =>
      rw [noParsedStop, List.all_cons, Bool.and_eq_true] at h
      obtain ⟨hh, ht⟩ := h
      cases e with
      | raised => rfl
      | turn t =>
        simp only [propose_changes_loop]
        by_cases hst : t.status ≠ 200
        · rw [if_pos hst]
        · rw [if_neg hst]
          push_neg at hst
          by_cases htc : t.hasToolCalls
          · rw [if_pos htc]; exact ih rest ht
          · rw [if_neg htc]
            by_cases hfr : t.finishReason = "stop"
            · rw [if_pos hfr]
              cases hcp : t.contentParsed with
              | none => rfl
              | some p =>
                exfalso
                simp [hst, htc, hfr, hcp] at hh
            · rw [if_neg hfr]; exact ih rest ht

theorem lookup_updateEntry {l : List (String × Sandbox)} {k : String} {sb : Sandbox}
    (v : Sandbox) (h : l.lookup k = some sb) :
    (updateEntry l k v).lookup k = some v := by
  induction l with
  | nil => simp at h
  | cons p rest ih =>
    obtain ⟨a, b⟩ := p
    by_cases hp : a = k
    · subst hp
      simp [updateEntry, List.lookup_cons]
    · have hbe : (k == a) = false := beq_eq_false_iff_ne.mpr (Ne.symm hp)
      have h' : rest.lookup k = some sb := by
        rw [List.lookup_cons, hbe] at h
        exact h
      have goal := ih h'
      simp only [updateEntry, List.map_cons] at goal ⊢
      rw [if_neg hp, List.lookup_cons, hbe]
      exact goal

theorem lookup_removeEntry (l : List (String × Sandbox)) (k : String) :
    (removeEntry l k).lookup k = none := by
  induction l with
  | nil => rfl
  | cons p rest ih =>
    obtain ⟨a, b⟩ := p
    by_cases hp : a = k
    · simp only [removeEntry, List.filter_cons] at ih ⊢
      rw [if_neg (by simp [hp])]
      exact ih
    · have hbe : (k == a) = false := beq_eq_false_iff_ne.mpr (Ne.symm hp)
      simp only [removeEntry, List.filter_cons] at ih ⊢
      rw [if_pos (by simp [hp]), List.lookup_cons, hbe]
      exact ih

/-! Claim theorems for the loop, backoff, registry and sandbox. -/

/-- C1 counterexample: a script whose first terminal response is
invalid JSON and whose second terminal response parses as a valid
proposal.  The loop ends the session on the first parse failure with
the JSON-parse-error payload — it does not issue a corrective re-prompt
and never reaches the second, parseable response. -/
theorem malformed_output_cex :
    propose_changes_loop 100 [exBadTerminal, exGoodTerminal] = ⟨"JSON parse error", []⟩ ∧
    propose_changes_loop 100 [exBadTerminal, exGoodTerminal] ≠ exProposal := by decide

/-- C1 (amended): when a terminal (no-tool-call, finish reason "stop")
response fails to parse as JSON, the agent loop ends the session
immediately with the failed payload `analysis = "JSON parse error"`,
`changes = []`; no corrective re-prompt is issued, regardless of any
responses the service would have produced afterwards. -/
theorem malformed_output_fails_immediately (fuel : Nat) (rest : List ApiEvent) :
    propose_changes_loop (fuel + 1) (ApiEvent.turn ⟨200, false, "stop", none⟩ :: rest)
      = ⟨"JSON parse error", []⟩ := by
  simp [propose_changes_loop]

/-- C2 counterexample: the error hint "try again in 630ms" yields a
wait of exactly 1 second, which misses the claimed ≈0.63 s by 0.37 s —
the minimum-1-second clamp on line 62 overrides the parsed value. -/
theorem backoff_630ms_cex :
    rateLimitWait "Please try again in 630ms" 1 = 1 ∧
    (1 : ℚ) - 63 / 100 = 37 / 100 := by
  constructor
  · unfold rateLimitWait
    rw [parse630]
    norm_num
  · norm_num

/-- C2 (amended): the hint "try again in 2s" yields a wait of exactly
2 seconds; the hint "try again in 630ms" is parsed as 630 ms = 0.63 s
but the wait is clamped from below to the 1-second minimum, so the
backoff sleeps 1 second. -/
theorem backoff_hint_waits :
    rateLimitWait "Please try again in 2s" 1 = 2 ∧
    parseWaitHint "Please try again in 630ms" = some (630, "ms") ∧
    (630 : ℚ) / 1000 = 63 / 100 ∧
    rateLimitWait "Please try again in 630ms" 1 = 1 := by
  refine ⟨?_, parse630, by norm_num, ?_⟩
  · unfold rateLimitWait
    rw [parse2s]
    have hne : ("s" : String) ≠ "ms" := by decide
    simp only [hne, if_false]
    norm_num
  · unfold rateLimitWait
    rw [parse630]
    norm_num

/-- C3 counterexample: with the OPENAI_API_KEY credential missing, the
entry point exits with status 1 and emits nothing on the primary
output channel — no JSON object with an empty changes list is
produced (the same happens for an empty or missing error log). -/
theorem main_missing_key_cex :
    main_entry 2 "" "build failed" [exGoodTerminal] = MainResult.exitNoKey ∧
    emitsJson (main_entry 2 "" "build failed" [exGoodTerminal]) = false ∧
    main_entry 2 "sk-key" "" [exGoodTerminal] = MainResult.exitEmptyLog ∧
    emitsJson (main_entry 2 "sk-key" "" [exGoodTerminal]) = false := by decide

/-- C3 (amended): fatal conditions reached inside the proposal loop —
non-200 API responses (including exhausted rate-limit retries),
transport exceptions, exhausted iterations and unparseable final
output — do emit a well-formed JSON object with an empty changes list
and an explanatory analysis on stdout; but a missing credential or an
empty/missing error log makes the entry point exit with status 1
without emitting any JSON on the primary output channel. -/
theorem main_fatal_empty_changes (apiKey errorLog : String) (events : List ApiEvent)
    (hk : apiKey ≠ "") (he : errorLog ≠ "") (hs : noParsedStop events = true) :
    main_entry 2 apiKey errorLog events
      = MainResult.stdout (propose_changes_loop 100 events) ∧
    (propose_changes_loop 100 events).changes = [] ∧
    emitsJson (main_entry 2 "" errorLog events) = false ∧
    emitsJson (main_entry 2 apiKey "" events) = false := by
  refine ⟨?_, loop_fatal_empty_changes 100 events hs, ?_, ?_⟩
  · simp [main_entry, propose_changes, hk, he]
  · simp [main_entry, emitsJson]
  · simp [main_entry, emitsJson, hk]

/-- C3 witness: the amended theorem applied to a concrete environment
whose single response is an HTTP 500 failure. -/
theorem main_fatal_empty_changes_witness :
    ("sk-key" : String) ≠ "" ∧ ("build failed" : String) ≠ "" ∧
    noParsedStop [ApiEvent.turn ⟨500, false, "stop", none⟩] = true ∧
    (main_entry 2 "sk-key" "build failed" [ApiEvent.turn ⟨500, false, "stop", none⟩]
        = MainResult.stdout (propose_changes_loop 100 [ApiEvent.turn ⟨500, false, "stop", none⟩]) ∧
      (propose_changes_loop 100 [ApiEvent.turn ⟨500, false, "stop", none⟩]).changes = [] ∧
      emitsJson (main_entry 2 "" "build failed" [ApiEvent.turn ⟨500, false, "stop", none⟩]) = false ∧
      emitsJson (main_entry 2 "sk-key" "" [ApiEvent.turn ⟨500, false, "stop", none⟩]) = false) := by
  exact ⟨by decide, by decide, by decide,
    main_fatal_empty_changes "sk-key" "build failed" _ (by decide) (by decide) (by decide)⟩

/-- C4: after a successful synthesis of a tool, synthesizing again with
the same name and byte-identical source is a cache hit: it returns
success with cached=True, does not execute (recompile) the source, and
leaves the registry state unchanged. -/
theorem synthesis_cache_hit (st : RegistryState) (n c d d2 : String) (e1 e2 : Bool)
    (hsucc : (create_dynamic_tool st n c d e1).1.success = true) :
    (create_dynamic_tool (create_dynamic_tool st n c d e1).2 n c d2 e2).1
      = ⟨true, true, false⟩ ∧
    (create_dynamic_tool (create_dynamic_tool st n c d e1).2 n c d2 e2).2
      = (create_dynamic_tool st n c d e1).2 := by
  by_cases hmem : (n, c) ∈ st.cacheFiles
  · simp [create_dynamic_tool, hmem]
  · cases e1 with
    | false => simp [create_dynamic_tool, hmem] at hsucc
    | true => simp [create_dynamic_tool, hmem, List.mem_cons]

/-- C4 witness: the cache-hit theorem applied to a fresh registry and a
concrete tool. -/
theorem synthesis_cache_hit_witness :
    (create_dynamic_tool ⟨[], []⟩ "sum_tool" "def sum_tool(): pass" "adds" true).1.success
        = true ∧
    ((create_dynamic_tool
          (create_dynamic_tool ⟨[], []⟩ "sum_tool" "def sum_tool(): pass" "adds" true).2
          "sum_tool" "def sum_tool(): pass" "adds again" true).1
        = ⟨true, true, false⟩ ∧
      (create_dynamic_tool
          (create_dynamic_tool ⟨[], []⟩ "sum_tool" "def sum_tool(): pass" "adds" true).2
          "sum_tool" "def sum_tool(): pass" "adds again" true).2
        = (create_dynamic_tool ⟨[], []⟩ "sum_tool" "def sum_tool(): pass" "adds" true).2) := by
  exact ⟨by decide,
    synthesis_cache_hit ⟨[], []⟩ "sum_tool" "def sum_tool(): pass" "adds" "adds again"
      true true (by decide)⟩

/-- C7: cleanup of an existing sandbox holding at least one completed
operation refuses without force and leaves the registry and directory
set unchanged; cleanup with force always removes both the registry
entry and the sandbox directory. -/
theorem cleanup_guard (st : SandboxState) (name : String) (sb : Sandbox)
    (h : st.sandboxes.lookup name = some sb) :
    ((sb.operations.filter fun op => op.status == "completed") ≠ [] →
      cleanup_sandbox st name false
        = (CleanupOutcome.refusedWarning
            (sb.operations.filter fun op => op.status == "completed").length, st)) ∧
    (cleanup_sandbox st name true).1 = CleanupOutcome.removed sb.operations.length ∧
    (cleanup_sandbox st name true).2.sandboxes.lookup name = none ∧
    (cleanup_sandbox st name true).2.dirs = st.dirs.erase sb.path := by
  refine ⟨?_, ?_, ?_, ?_⟩
  · intro hne
    have hfe : (sb.operations.filter fun op => op.status == "completed").isEmpty = false := by
      cases hfil : sb.operations.filter fun op => op.status == "completed" with
      | nil => exact absurd hfil hne
      | cons x xs => rfl
    have hoe : sb.operations.isEmpty = false := by
      cases hos : sb.operations with
      | nil =>
        exfalso
        apply hne
        rw [hos]
        rfl
      | cons x xs => rfl
    simp [cleanup_sandbox, h, hfe, hoe]
  · simp [cleanup_sandbox, h]
  · have hre := lookup_removeEntry st.sandboxes name
    simpa [cleanup_sandbox, h] using hre
  · simp [cleanup_sandbox, h]

/-- C7 witness: the guard theorem applied to a concrete registry with
one completed operation. -/
theorem cleanup_guard_witness :
    exStateCompleted.sandboxes.lookup "sb" = some exSandboxCompleted ∧
    ((exSandboxCompleted.operations.filter fun op => op.status == "completed") ≠ [] ∧
      cleanup_sandbox exStateCompleted "sb" false
        = (CleanupOutcome.refusedWarning 1, exStateCompleted)) ∧
    (cleanup_sandbox exStateCompleted "sb" true).1 = CleanupOutcome.removed 1 ∧
    (cleanup_sandbox exStateCompleted "sb" true).2.sandboxes.lookup "sb" = none := by
  have h := cleanup_guard exStateCompleted "sb" exSandboxCompleted (by decide)
  refine ⟨by decide, ⟨by decide, ?_⟩, ?_, h.2.2.1⟩
  · have := h.1 (by decide)
    simpa using this
  · simpa using h.2.1

/-- C8: schema inference maps the native annotations int, float, bool,
list, dict to the schema types integer, number, boolean, array, object,
defaults to string otherwise; every declared parameter becomes a
property of its inferred type; and (for distinct parameter names) a
parameter is listed in required exactly when it has no default; the
concrete signature (a: int, b: str = "x") marks a required and b
optional. -/
theorem schema_inference (params : List PyParam)
    (hnd : (params.map (·.name)).Nodup) :
    (schemaParamType .int = "integer" ∧ schemaParamType .float = "number" ∧
      schemaParamType .bool = "boolean" ∧ schemaParamType .list = "array" ∧
      schemaParamType .dict = "object" ∧ (∀ s, schemaParamType (.other s) = "string") ∧
      schemaParamType .empty = "string") ∧
    (generate_tool_schema params).properties
      = params.map (fun p => (p.name, schemaParamType p.annotation)) ∧
    (∀ p ∈ params, p.name ∈ (generate_tool_schema params).required ↔ p.hasDefault = false) ∧
    generate_tool_schema [⟨"a", .int, false⟩, ⟨"b", .other "str", true⟩]
      = ⟨[("a", "integer"), ("b", "string")], ["a"]⟩ := by
  refine ⟨⟨rfl, rfl, rfl, rfl, rfl, fun s => rfl, rfl⟩, rfl, ?_, by decide⟩
  intro p hp
  simp only [generate_tool_schema, List.mem_map, List.mem_filter]
  constructor
  · rintro ⟨q, ⟨hq, hqd⟩, hname⟩
    have hqp : q = p := List.inj_on_of_nodup_map hnd hq hp hname
    subst hqp
    simpa using hqd
  · intro hpd
    exact ⟨p, ⟨hp, by simp [hpd]⟩, rfl⟩

/-- C8 witness: the schema-inference theorem applied to the concrete
two-parameter signature. -/
theorem schema_inference_witness :
    (([⟨"a", .int, false⟩, ⟨"b", .other "str", true⟩] : List PyParam).map (·.name)).Nodup ∧
    (∀ p ∈ ([⟨"a", .int, false⟩, ⟨"b", .other "str", true⟩] : List PyParam),
      p.name ∈ (generate_tool_schema
          [⟨"a", .int, false⟩, ⟨"b", .other "str", true⟩]).required
        ↔ p.hasDefault = false) := by
  have hnd : (([⟨"a", .int, false⟩, ⟨"b", .other "str", true⟩] : List PyParam).map
      (·.name)).Nodup := by decide
  exact ⟨hnd,
    (schema_inference [⟨"a", .int, false⟩, ⟨"b", .other "str", true⟩] hnd).2.2.1⟩

/-- C9: running a valid operation on an existing sandbox appends
exactly one operation record — id "op-<n+1>", status "completed" when
the underlying action succeeded and "failed" otherwise — and the
previously recorded operations are preserved unchanged as a prefix. -/
theorem run_appends_exactly_one (st : SandboxState)
    (name opType opData descr : String) (exec : SandboxResult) (sb : Sandbox)
    (h : st.sandboxes.lookup name = some sb) (hty : opType ∈ validOpTypes) :
    (run_in_sandbox st name opType opData descr exec).1
      = RunOutcome.ran ("op-" ++ toString (sb.operations.length + 1))
          (if exec.success then "completed" else "failed") ∧
    (run_in_sandbox st name opType opData descr exec).2.sandboxes.lookup name
      = some { sb with operations := sb.operations ++
          [⟨"op-" ++ toString (sb.operations.length + 1), opType, descr,
            if exec.success then "completed" else "failed", exec⟩] } := by
  simp only [run_in_sandbox, h]
  rw [if_pos hty]
  exact ⟨rfl, lookup_updateEntry _ h⟩

/-- C9 witness: the append theorem applied to a failing command on the
concrete one-operation sandbox registry. -/
theorem run_appends_exactly_one_witness :
    exStateCompleted.sandboxes.lookup "sb" = some exSandboxCompleted ∧
    ("command" : String) ∈ validOpTypes ∧
    ((run_in_sandbox exStateCompleted "sb" "command" "npm test" "rerun" ⟨false, "err"⟩).1
        = RunOutcome.ran "op-2" "failed" ∧
      (run_in_sandbox exStateCompleted "sb" "command" "npm test" "rerun"
            ⟨false, "err"⟩).2.sandboxes.lookup "sb"
        = some { exSandboxCompleted with operations := exSandboxCompleted.operations ++
            [⟨"op-2", "command", "rerun", "failed", ⟨false, "err"⟩⟩] }) := by
  have h := run_appends_exactly_one exStateCompleted "sb" "command" "npm test" "rerun"
    ⟨false, "err"⟩ exSandboxCompleted (by decide) (by decide)
  exact ⟨by decide, by decide, by simpa using h.1, by simpa using h.2⟩

/-- C10: without force, the cleanup guard looks only for operations
with status "completed": an existing sandbox whose operations are all
failed (or that has none) is deleted — registry entry removed and
directory erased — with no refusal or warning. -/
theorem cleanup_unforced_all_failed (st : SandboxState) (name : String) (sb : Sandbox)
    (h : st.sandboxes.lookup name = some sb)
    (hnc : (sb.operations.filter fun op => op.status == "completed") = []) :
    cleanup_sandbox st name false
      = (CleanupOutcome.removed sb.operations.length,
          ⟨removeEntry st.sandboxes name, st.dirs.erase sb.path⟩) ∧
    (cleanup_sandbox st name false).2.sandboxes.lookup name = none := by
  have hbody : cleanup_sandbox st name false
      = (CleanupOutcome.removed sb.operations.length,
          ⟨removeEntry st.sandboxes name, st.dirs.erase sb.path⟩) := by
    simp [cleanup_sandbox, h, hnc]
  refine ⟨hbody, ?_⟩
  rw [hbody]
  exact lookup_removeEntry st.sandboxes name

/-- C10 witness: the theorem applied to the concrete registry whose one
sandbox holds only a failed operation. -/
theorem cleanup_unforced_all_failed_witness :
    exStateFailed.sandboxes.lookup "sb" = some exSandboxFailed ∧
    (exSandboxFailed.operations.filter fun op => op.status == "completed") = [] ∧
    (cleanup_sandbox exStateFailed "sb" false
        = (CleanupOutcome.removed 1,
            ⟨removeEntry exStateFailed.sandboxes "sb",
              exStateFailed.dirs.erase exSandboxFailed.path⟩) ∧
      (cleanup_sandbox exStateFailed "sb" false).2.sandboxes.lookup "sb" = none) := by
  have h := cleanup_unforced_all_failed exStateFailed "sb" exSandboxFailed
    (by decide) (by decide)
  exact ⟨by decide, by decide, by simpa using h.1, h.2⟩

end ProposeChanges
